import Mathlib

/-!
Verification of the swift-apis x10 runtime core against its specification.

The development shallowly embeds the relevant parts of the source:

* `xla::util::MultiWait` (Sources/x10/xla_client/multi_wait.cc): a completion
  barrier.  Its mutable state is a `MultiWaitState`; `Done`, `Wait`,
  `Wait(double)`, `Reset` and `Completer` become explicit state-passing
  functions.  Exceptions are modelled as `Nat` identifiers; a unit of work is
  an `Option Nat` (`none` = returns normally, `some e` = raises `e`).
* the IR node kinds shown in the corpus (prod.cpp, expand.cpp, leaky_relu.cpp,
  upsample_nearest2d.cpp, softshrink.cpp, unselect.cpp,
  reflection_pad2d_backward.cpp): each becomes a structure with a smart
  constructor mirroring its C++ constructor, a `Clone` and a lowering
  function.  Backend ops (`xla::XlaOp`) are symbolic shape-carrying
  expressions `XlaExpr`.
* the Swift `Tensor` `Equatable` conformance (shown in the corpus).
* the mesh rendezvous client, modelled from the spec (its implementation is
  not among the shown sources).
-/

namespace XlaUtil

/-- State of a `MultiWait` barrier: the expected completion count `count_`,
the monotonically increasing `completed_count_`, and the captured exception
pointer `exptr_` (exceptions are modelled as `Nat` identifiers). -/
structure MultiWaitState where
  count : Nat
  completed_count : Nat
  exptr : Option Nat
deriving DecidableEq, Repr

/-- A fresh barrier state, used as the starting point of concrete runs. -/
def initState : MultiWaitState := ⟨0, 0, none⟩

/-- MultiWait::Reset(count): sets `count_ = count`, `completed_count_ = 0`,
`exptr_ = nullptr` (multi_wait.cc lines 42-47). -/
def Reset (count : Nat) (_s : MultiWaitState) : MultiWaitState :=
  { count := count, completed_count := 0, exptr := none }

/-- MultiWait::Done() (multi_wait.cc lines 11-21): increments
`completed_count_` under the mutex and computes
`notify = completed_count_ >= count_`; when `notify` holds, `cv_.notify_all()`
is issued after the lock is released.  Returns the new state together with
the `notify` flag. -/
def Done (s : MultiWaitState) : MultiWaitState × Bool :=
  let s' : MultiWaitState := { s with completed_count := s.completed_count + 1 }
  (s', decide (s.count ≤ s'.completed_count))

/-- Outcome of `MultiWait::Wait()`: return normally, or re-raise the captured
exception. -/
inductive WaitResult where
  | normal : WaitResult
  | raised (e : Nat) : WaitResult
deriving DecidableEq, Repr

/-- MultiWait::Wait() (multi_wait.cc lines 23-29): blocks on the condition
variable until `completed_count_ >= count_`, then re-raises `exptr_` if one
was captured, otherwise returns.  `none` models the caller still being
blocked in `cv_.wait`. -/
def Wait (s : MultiWaitState) : Option WaitResult :=
  if s.count ≤ s.completed_count then
    some (match s.exptr with
          | none => WaitResult.normal
          | some e => WaitResult.raised e)
  else
    none

/-- Outcome of `MultiWait::Wait(double)`: return normally, re-raise the
captured exception, or terminate the process via `TF_LOG(FATAL)`. -/
inductive TimedWaitResult where
  | normal : TimedWaitResult
  | raised (e : Nat) : TimedWaitResult
  | fatalTimeout : TimedWaitResult
deriving DecidableEq, Repr

/-- Injection of a `Wait()` outcome into the timed-wait outcome type. -/
def liftWaitResult : WaitResult → TimedWaitResult
  | WaitResult.normal => TimedWaitResult.normal
  | WaitResult.raised e => TimedWaitResult.raised e

/-- MultiWait::Wait(double wait_seconds) (multi_wait.cc lines 31-40):
`cv_.wait_for(lock, duration(wait_seconds), pred)` returns the predicate
`completed_count_ >= count_` evaluated at exit; when it is false (the timeout
elapsed before completion) the code hits `TF_LOG(FATAL) << "Hit timeout"`,
which terminates the process; otherwise the captured exception, if any, is
re-raised exactly as in `Wait()`.  `s` is the barrier state at exit and
`wait_seconds` only bounds how long the caller sleeps, never the outcome. -/
def WaitFor (s : MultiWaitState) (wait_seconds : ℚ) : TimedWaitResult :=
  if s.count ≤ s.completed_count then
    match s.exptr with
    | none => TimedWaitResult.normal
    | some e => TimedWaitResult.raised e
  else
    let _ := wait_seconds
    TimedWaitResult.fatalTimeout

/-- Closure returned by MultiWait::Completer (multi_wait.cc lines 49-60):
runs `func()`; if it throws, assigns `exptr_ = std::current_exception()`
under the mutex (overwriting any previously stored exception); then always
calls `Done()`.  `work = none` models a normally returning `func`,
`work = some e` one that raises `e`. -/
def runCompleter (work : Option Nat) (s : MultiWaitState) : MultiWaitState × Bool :=
  Done (match work with
        | none => s
        | some e => { s with exptr := some e })

/-- Runs a list of completer closures sequentially (one linearization of the
concurrent completions, all of whose counter and exception updates happen
under the barrier's single mutex). -/
def runCompleters (works : List (Option Nat)) (s : MultiWaitState) : MultiWaitState :=
  works.foldl (fun st w => (runCompleter w st).1) s

/-- Runs `k` consecutive `Done()` calls, discarding the notify flags. -/
def runDones : Nat → MultiWaitState → MultiWaitState
  | 0, s => s
  | k + 1, s => runDones k (Done s).1

/-- Model of `cv_.notify_all()`: given the list of blocked waiters it wakes
all of them (first component) and leaves none blocked (second component) —
a broadcast, not a single wake. -/
def notify_all (waiters : List Nat) : List Nat × List Nat :=
  (waiters, [])

theorem runCompleter_fst (w : Option Nat) (s : MultiWaitState) :
    (runCompleter w s).1 =
      { count := s.count, completed_count := s.completed_count + 1,
        exptr := match w with | none => s.exptr | some e => some e } := by
  cases w <;> rfl

theorem runCompleters_count (works : List (Option Nat)) (s : MultiWaitState) :
    (runCompleters works s).count = s.count := by
  induction works generalizing s with
  | nil => rfl
  | cons w ws ih =>
    simp only [runCompleters, List.foldl_cons] at *
    rw [ih]
    cases w <;> rfl

theorem runCompleters_completed (works : List (Option Nat)) (s : MultiWaitState) :
    (runCompleters works s).completed_count = s.completed_count + works.length := by
  induction works generalizing s with
  | nil => simp [runCompleters]
  | cons w ws ih =>
    simp only [runCompleters, List.foldl_cons] at *
    rw [ih]
    cases w <;> simp [runCompleter, Done] <;> omega

theorem runCompleters_exptr (works : List (Option Nat)) (s : MultiWaitState) :
    (runCompleters works s).exptr =
      (match (works.filterMap id).getLast? with
       | some e => some e
       | none => s.exptr) := by
  induction works generalizing s with
  | nil => simp [runCompleters]
  | cons w ws ih =>
    simp only [runCompleters, List.foldl_cons] at *
    rw [ih]
    cases w with
    | none => simp [runCompleter, Done]
    | some e =>
      simp only [List.filterMap_cons, id]
      cases h : (ws.filterMap id).getLast? with
      | none =>
        have : ws.filterMap id = [] := by
          cases hfm : ws.filterMap id with
          | nil => rfl
          | cons a l => rw [hfm] at h; simp [List.getLast?] at h
        simp [this, runCompleter, Done]
      | some e' =>
        obtain ⟨a, l, hal⟩ : ∃ a l, ws.filterMap id = a :: l := by
          cases hfm : ws.filterMap id with
          | nil => rw [hfm] at h; simp at h
          | cons a l => exact ⟨a, l, rfl⟩
        rw [hal] at h ⊢
        rw [List.getLast?_cons_cons, h]

theorem runDones_eq (k : Nat) (s : MultiWaitState) :
    runDones k s = ⟨s.count, s.completed_count + k, s.exptr⟩ := by
  induction k generalizing s with
  | zero => rfl
  | succ n ih =>
    show runDones n (Done s).1 = _
    rw [ih]
    simp [Done, MultiWaitState.mk.injEq]
    omega

theorem wait_runCompleters_raised (N : Nat) (works : List (Option Nat)) (e : Nat)
    (s0 : MultiWaitState) (hlen : N ≤ works.length)
    (hlast : (works.filterMap id).getLast? = some e) :
    Wait (runCompleters works (Reset N s0)) = some (WaitResult.raised e) := by
  have hc := runCompleters_count works (Reset N s0)
  have hcc := runCompleters_completed works (Reset N s0)
  have he := runCompleters_exptr works (Reset N s0)
  rw [hlast] at he
  have hcond : (runCompleters works (Reset N s0)).count ≤
      (runCompleters works (Reset N s0)).completed_count := by
    rw [hc, hcc]; simp [Reset]; omega
  unfold Wait
  rw [if_pos hcond, he]

theorem wait_runCompleters_blocked (N : Nat) (p : List (Option Nat))
    (s0 : MultiWaitState) (hp : p.length < N) :
    Wait (runCompleters p (Reset N s0)) = none := by
  have hc := runCompleters_count p (Reset N s0)
  have hcc := runCompleters_completed p (Reset N s0)
  unfold Wait
  rw [if_neg]
  rw [hc, hcc]; simp [Reset]; omega

/-- C1: the claim states that the failure captured by the barrier and
re-raised by `Wait()` is the FIRST failure recorded, later failures never
replacing the stored one.  Counterexample: two completer closures whose work
raises 7 and then 9, run against a `Reset 2` barrier; the completer body
assigns `exptr_ = std::current_exception()` unconditionally, so the second
failure overwrites the first and `Wait()` re-raises 9, not 7. -/
theorem C1_first_failure_counterexample :
    Wait (runCompleters [some 7, some 9] (Reset 2 initState)) =
      some (WaitResult.raised 9) ∧
    some (WaitResult.raised 9) ≠ some (WaitResult.raised 7) := by
  decide

/-- C1 (amended): the failure captured by the barrier and re-raised by
`Wait()` to every waiter is the LAST failure recorded — each failure
recorded later overwrites the previously stored one (multi_wait.cc lines
49-60 assign `exptr_` unconditionally inside the catch block). -/
theorem C1_last_failure_wins (N : Nat) (works : List (Option Nat)) (e : Nat)
    (s0 : MultiWaitState) (hlen : works.length = N)
    (hlast : (works.filterMap id).getLast? = some e) :
    Wait (runCompleters works (Reset N s0)) = some (WaitResult.raised e) :=
  wait_runCompleters_raised N works e s0 (by omega) hlast

theorem C1_last_failure_wins_witness :
    Wait (runCompleters [some 7, some 9] (Reset 2 initState)) =
      some (WaitResult.raised 9) :=
  C1_last_failure_wins 2 [some 7, some 9] 9 initState (by decide) (by decide)

/-- C3: every completer closure invokes `Done()` exactly once per invocation
(the completed counter grows by exactly 1 whether the work returns normally
or raises), so after `N` completer closures run against a `Reset N` barrier
the completed count equals `N` and no `Wait()` caller stays blocked. -/
theorem C3_completer_always_done (works : List (Option Nat)) (N : Nat)
    (s0 : MultiWaitState) (hlen : works.length = N) :
    (∀ (w : Option Nat) (s : MultiWaitState),
        ((runCompleter w s).1).completed_count = s.completed_count + 1) ∧
    (runCompleters works (Reset N s0)).completed_count = N ∧
    Wait (runCompleters works (Reset N s0)) ≠ none := by
  refine ⟨fun w s => by rw [runCompleter_fst], ?_, ?_⟩
  · rw [runCompleters_completed]; simp [Reset, hlen]
  · have hcond : (runCompleters works (Reset N s0)).count ≤
        (runCompleters works (Reset N s0)).completed_count := by
      rw [runCompleters_count, runCompleters_completed]; simp [Reset, hlen]
    unfold Wait
    rw [if_pos hcond]
    simp

theorem C3_completer_always_done_witness :
    (∀ (w : Option Nat) (s : MultiWaitState),
        ((runCompleter w s).1).completed_count = s.completed_count + 1) ∧
    (runCompleters [none, some 4] (Reset 2 initState)).completed_count = 2 ∧
    Wait (runCompleters [none, some 4] (Reset 2 initState)) ≠ none :=
  C3_completer_always_done [none, some 4] 2 initState (by decide)

/-- C4: `Wait()` never returns (and hence never re-raises a captured
failure) while the completed count is below `count`; and when exactly one of
`N` completers' work raises `e`, `Wait()` is still blocked after any proper
prefix of the `N` completions but re-raises `e` once all `N` `Done()` calls
have happened. -/
theorem C4_wait_blocks_until_all (s : MultiWaitState) (p works : List (Option Nat))
    (N e : Nat) (s0 : MultiWaitState)
    (hp : p.length < N) (hw : works.length = N)
    (hone : works.filterMap id = [e]) :
    (s.completed_count < s.count → Wait s = none) ∧
    Wait (runCompleters p (Reset N s0)) = none ∧
    Wait (runCompleters works (Reset N s0)) = some (WaitResult.raised e) := by
  refine ⟨?_, wait_runCompleters_blocked N p s0 hp, ?_⟩
  · intro h
    unfold Wait
    rw [if_neg]
    omega
  · exact wait_runCompleters_raised N works e s0 (by omega) (by rw [hone]; rfl)

theorem C4_wait_blocks_until_all_witness :
    Wait (⟨2, 1, some 5⟩ : MultiWaitState) = none ∧
    Wait (runCompleters [none] (Reset 2 initState)) = none ∧
    Wait (runCompleters [none, some 5] (Reset 2 initState)) =
      some (WaitResult.raised 5) := by
  have h := C4_wait_blocks_until_all ⟨2, 1, some 5⟩ [none] [none, some 5] 2 5
    initState (by decide) (by decide) (by decide)
  exact ⟨h.1 (by decide), h.2.1, h.2.2⟩

/-- C5: each `Done()` call increments the completed count by exactly one
(under the barrier's mutex); in a generation consisting of `Reset N`
followed by `N` `Done()` calls, the `k`-th call's notify flag is raised
exactly when `k = N` — the broadcast happens exactly once, at the call whose
increment makes the completed count reach `count` — and the wake is a
broadcast (`notify_all` wakes every blocked waiter, leaving none blocked). -/
theorem C5_done_notify_once (N k : Nat) (s0 : MultiWaitState)
    (h1 : 1 ≤ k) (h2 : k ≤ N) :
    (∀ s : MultiWaitState, ((Done s).1).completed_count = s.completed_count + 1) ∧
    (Done (runDones (k - 1) (Reset N s0))).2 = decide (k = N) ∧
    (∀ ws : List Nat, notify_all ws = (ws, [])) := by
  refine ⟨fun s => rfl, ?_, fun ws => rfl⟩
  rw [runDones_eq]
  simp [Done, Reset, decide_eq_decide]
  omega

theorem C5_done_notify_once_witness :
    (∀ s : MultiWaitState, ((Done s).1).completed_count = s.completed_count + 1) ∧
    (Done (runDones (3 - 1) (Reset 3 initState))).2 = decide (3 = 3) ∧
    (∀ ws : List Nat, notify_all ws = (ws, [])) :=
  C5_done_notify_once 3 3 initState (by decide) (by decide)

/-- C6: `Wait(wait_seconds)` either observes the completed count reach
`count` and then behaves exactly like `Wait()` (returning normally or
re-raising the captured failure), or — when the timeout elapses first, i.e.
the exit state still has `completed_count < count` — terminates the process
fatally (`TF_LOG(FATAL)`); every outcome is one of these two, so no
recoverable timeout result is ever returned to the caller, for any timeout
value. -/
theorem C6_wait_timeout_fatal (s : MultiWaitState) (wait_seconds : ℚ) :
    (s.count ≤ s.completed_count →
      ∃ r, Wait s = some r ∧ WaitFor s wait_seconds = liftWaitResult r) ∧
    (s.completed_count < s.count →
      WaitFor s wait_seconds = TimedWaitResult.fatalTimeout) ∧
    (WaitFor s wait_seconds = TimedWaitResult.fatalTimeout ∨
      ∃ r, Wait s = some r ∧ WaitFor s wait_seconds = liftWaitResult r) := by
  have main : s.count ≤ s.completed_count →
      ∃ r, Wait s = some r ∧ WaitFor s wait_seconds = liftWaitResult r := by
    intro h
    unfold Wait WaitFor
    rw [if_pos h, if_pos h]
    cases s.exptr with
    | none => exact ⟨WaitResult.normal, rfl, rfl⟩
    | some e => exact ⟨WaitResult.raised e, rfl, rfl⟩
  refine ⟨main, ?_, ?_⟩
  · intro hlt
    unfold WaitFor
    rw [if_neg (by omega)]
  · by_cases h : s.count ≤ s.completed_count
    · exact Or.inr (main h)
    · exact Or.inl (by unfold WaitFor; rw [if_neg h])

theorem C6_wait_timeout_fatal_witness :
    (∃ r, Wait (⟨2, 2, some 5⟩ : MultiWaitState) = some r ∧
      WaitFor ⟨2, 2, some 5⟩ 1 = liftWaitResult r) ∧
    WaitFor (⟨3, 1, none⟩ : MultiWaitState) 1 = TimedWaitResult.fatalTimeout :=
  ⟨(C6_wait_timeout_fatal ⟨2, 2, some 5⟩ 1).1 (by decide),
   (C6_wait_timeout_fatal ⟨3, 1, none⟩ 1).2.1 (by decide)⟩

end XlaUtil

namespace SwiftXla

/-- Shape of an XLA value: an element type (encoded as an integer, as
`xla::PrimitiveType` is an enum) and a dimension vector (`xla::int64`
entries). -/
structure Shape where
  dtype : Int
  dims : List Int
deriving DecidableEq, Repr

/-- Operation kinds of the node types shown in the corpus (`at::aten`
symbols, plus the custom `xla_unselect`). -/
inductive OpKind where
  | leaky_relu
  | prod
  | softshrink
  | expand
  | unselect
  | upsample_nearest2d
  | reflection_pad2d_backward
deriving DecidableEq, Repr

/-- Symbolic backend op (`xla::XlaOp`): an expression whose output shape is
computable.  `parameter` is the placeholder used for shape inference; the
remaining constructors are the builder calls issued by the lowerings shown
in the corpus. -/
inductive XlaExpr where
  | parameter (sh : Shape)
  | convert (input : XlaExpr) (dtype : Int)
  | reduceProd (input : XlaExpr) (dimensions : List Int) (keep : Bool)
  | broadcast (input : XlaExpr) (size : List Int)
  | resizeNearest (input : XlaExpr) (target : Shape)
  | padBackward (grad_output : XlaExpr) (input : XlaExpr) (padding : List Int)
deriving DecidableEq, Repr

instance : Inhabited XlaExpr := ⟨XlaExpr.parameter ⟨0, []⟩⟩

/-- Output shape of a reduction (`BuildProd`): reduced dimensions are kept
with extent 1 when `keep` is set, removed otherwise. -/
def reduceShape (sh : Shape) (dimensions : List Int) (keep : Bool) : Shape :=
  if keep then
    let kept := sh.dims.mapIdx (fun i d => if (i : Int) ∈ dimensions then 1 else d)
    { sh with dims := kept }
  else
    let indexed := sh.dims.mapIdx (fun i d => ((i : Int), d))
    let removed := indexed.filterMap (fun p => if p.1 ∈ dimensions then none else some p.2)
    { sh with dims := removed }

/-- Element type produced by `ConvertToNumeric` for a given element type
(convert_ops body not among the shown sources; predicates are widened to a
numeric type, numeric types pass through). -/
def numericType (dtype : Int) : Int :=
  if dtype = 0 then 4 else dtype

/-- Shape of a symbolic backend op. -/
def XlaExpr.shape : XlaExpr → Shape
  | XlaExpr.parameter sh => sh
  | XlaExpr.convert e d => { e.shape with dtype := d }
  | XlaExpr.reduceProd e dimensions keep => reduceShape e.shape dimensions keep
  | XlaExpr.broadcast e size => { e.shape with dims := size }
  | XlaExpr.resizeNearest _ target => target
  | XlaExpr.padBackward _ input _ => input.shape

/-- Modelled from the spec: `InferOutputShape` (infer_output_shape.cpp is
not among the shown sources) invokes the lowering function "against symbolic
placeholder inputs", "reading the resulting program's output shape". -/
def InferOutputShape (shapes : List Shape) (f : List XlaExpr → XlaExpr) : Shape :=
  (f (shapes.map XlaExpr.parameter)).shape

/-- Value: a reference to one output slot of a node, carrying the producing
node's shape for that slot and the producing node's structural hash (used
when hashing consumers). -/
structure Value where
  shape : Shape
  vhash : Nat
deriving DecidableEq, Repr

/-- Hash combinator underlying `xla::util::MHash` and the node hash: a
deterministic fold of the field encodings. -/
def mhash (fields : List Nat) : Nat :=
  fields.foldl (fun a x => (a * 1000003 + x) % 2 ^ 64) 2166136261

/-- Encoding of an `xla::int64` for hashing. -/
def encInt (x : Int) : Nat :=
  if x < 0 then 2 * x.natAbs + 1 else 2 * x.natAbs

/-- Encoding of an int64 vector for hashing. -/
def encIntList (xs : List Int) : Nat :=
  mhash (xs.map encInt)

/-- Encoding of a bool for hashing. -/
def encBool (b : Bool) : Nat :=
  if b then 1 else 0

/-- Encoding of a double (`negative_slope`, scalar parameters; modelled as a
rational) for hashing. -/
def encRat (q : ℚ) : Nat :=
  mhash [encInt q.num, q.den]

/-- ScalarHash on an `at::Scalar` parameter (hashing.cpp not among the shown
sources; any deterministic function of the scalar is faithful here). -/
def ScalarHash (q : ℚ) : Nat :=
  mhash [encRat q]

/-- Tag value of an operation kind for hashing. -/
def opKindHash : OpKind → Nat
  | OpKind.leaky_relu => 1
  | OpKind.prod => 2
  | OpKind.softshrink => 3
  | OpKind.expand => 4
  | OpKind.unselect => 5
  | OpKind.upsample_nearest2d => 6
  | OpKind.reflection_pad2d_backward => 7

/-- OptionalOr(dtype, -1) from the corpus: the contained value, or the
default when absent. -/
def OptionalOr (v : Option Int) (dflt : Int) : Int :=
  v.getD dflt

namespace Ir

/-- Node base (ir.h/ir.cpp are not among the shown sources; modelled from
the spec: "an operation kind (tag), an ordered list of operand edges, a
result shape, a number of outputs, and a structural hash combining the
operation kind, operand hashes, and kind-specific parameters", hash
"computed eagerly at construction"). -/
structure Node where
  op : OpKind
  operands : List Value
  shape : Shape
  num_outputs : Nat
  hash_seed : Nat
  node_hash : Nat
deriving DecidableEq, Repr

/-- Node constructor: stores the attributes and eagerly computes the
structural hash from the operation kind, operand hashes and the
kind-specific hash seed. -/
def mkNode (op : OpKind) (operands : List Value) (shape : Shape)
    (num_outputs : Nat) (hash_seed : Nat) : Node :=
  { op := op, operands := operands, shape := shape,
    num_outputs := num_outputs, hash_seed := hash_seed,
    node_hash := mhash (opKindHash op :: operands.map Value.vhash ++ [hash_seed]) }

end Ir

namespace Ops

/-- LowerProd (prod.cpp lines 17-30): casts the input (to `dtype` when
given, to a numeric type otherwise) and reduces with `BuildProd`. -/
def LowerProd (input : XlaExpr) (dimensions : List Int) (keep : Bool)
    (dtype : Option Int) : XlaExpr :=
  let casted := match dtype with
    | some d => XlaExpr.convert input d
    | none => XlaExpr.convert input (numericType input.shape.dtype)
  XlaExpr.reduceProd casted dimensions keep

/-- Prod node (prod.cpp): a product reduction with parameters `dimensions_`,
`keep_reduced_dimensions_`, `dtype_`. -/
structure Prod where
  base : Ir.Node
  dimensions : List Int
  keep_reduced_dimensions : Bool
  dtype : Option Int
deriving DecidableEq, Repr

namespace Prod

/-- NodeOutputShape for Prod (prod.cpp lines 32-41): infers the output shape
by running `LowerProd` — the very function `Lower` uses — on a placeholder
operand. -/
def NodeOutputShape (input : Value) (dimensions : List Int) (keep : Bool)
    (dtype : Option Int) : Shape :=
  InferOutputShape [input.shape]
    (fun operands => LowerProd (operands.getD 0 default) dimensions keep dtype)

/-- Prod constructor (prod.cpp lines 45-57): one operand, shape from
`NodeOutputShape`, hash seed `MHash(dimensions, keep_reduced_dimensions,
OptionalOr(dtype, -1))`. -/
def make (input : Value) (dimensions : List Int) (keep : Bool)
    (dtype : Option Int) : Prod :=
  { base := Ir.mkNode OpKind.prod [input]
      (NodeOutputShape input dimensions keep dtype) 1
      (mhash [encIntList dimensions, encBool keep,
              encInt (OptionalOr dtype (-1))]),
    dimensions := dimensions, keep_reduced_dimensions := keep, dtype := dtype }

/-- Prod::Clone (prod.cpp lines 59-62): rebuilds a Prod from
`operands.at(0)` and the stored parameters; `none` models the fatal
out-of-range failure of `at(0)`. -/
def Clone (n : Prod) (operands : List Value) : Option Prod :=
  (operands.get? 0).map fun x =>
    make x n.dimensions n.keep_reduced_dimensions n.dtype

/-- Prod::Lower (prod.cpp lines 64-68) applied to the already-lowered
operand op: the same `LowerProd` call used by shape inference. -/
def LowerOp (n : Prod) (input : XlaExpr) : XlaExpr :=
  LowerProd input n.dimensions n.keep_reduced_dimensions n.dtype

end Prod

/-- LeakyRelu node (leaky_relu.cpp): one operand, shape equal to the input
shape, parameter `negative_slope_` (a double, modelled as a rational). -/
structure LeakyRelu where
  base : Ir.Node
  negative_slope : ℚ
deriving DecidableEq, Repr

namespace LeakyRelu

/-- LeakyRelu constructor (leaky_relu.cpp lines 11-14). -/
def make (input : Value) (negative_slope : ℚ) : LeakyRelu :=
  { base := Ir.mkNode OpKind.leaky_relu [input] input.shape 1
      (mhash [encRat negative_slope]),
    negative_slope := negative_slope }

/-- LeakyRelu::Clone (leaky_relu.cpp lines 16-18). -/
def Clone (n : LeakyRelu) (operands : List Value) : Option LeakyRelu :=
  (operands.get? 0).map fun x => make x n.negative_slope

end LeakyRelu

/-- Softshrink node (corpus softshrink.cpp): one operand, shape equal to the
input shape, scalar parameter `lambda_`. -/
structure Softshrink where
  base : Ir.Node
  lambda : ℚ
deriving DecidableEq, Repr

namespace Softshrink

/-- Softshrink constructor (softshrink.cpp lines 12-15): hash seed
`ScalarHash(lambda)`. -/
def make (input : Value) (lambda : ℚ) : Softshrink :=
  { base := Ir.mkNode OpKind.softshrink [input] input.shape 1
      (ScalarHash lambda),
    lambda := lambda }

/-- Softshrink::Clone (softshrink.cpp lines 23-25). -/
def Clone (n : Softshrink) (operands : List Value) : Option Softshrink :=
  (operands.get? 0).map fun x => make x n.lambda

end Softshrink

/-- Expand node (expand.cpp): one operand, parameter `size_`, shape inferred
by running `BuildExpand` — the same builder `Lower` uses — on a placeholder
operand. -/
structure Expand where
  base : Ir.Node
  size : List Int
deriving DecidableEq, Repr

namespace Expand

/-- NodeOutputShape for Expand (expand.cpp lines 14-21). -/
def NodeOutputShape (input : Value) (size : List Int) : Shape :=
  InferOutputShape [input.shape]
    (fun operands => XlaExpr.broadcast (operands.getD 0 default) size)

/-- Expand constructor (expand.cpp lines 25-29). -/
def make (input : Value) (size : List Int) : Expand :=
  { base := Ir.mkNode OpKind.expand [input] (NodeOutputShape input size) 1
      (encIntList size),
    size := size }

/-- Expand::Clone (expand.cpp lines 31-33). -/
def Clone (n : Expand) (operands : List Value) : Option Expand :=
  (operands.get? 0).map fun x => make x n.size

/-- Expand::Lower (expand.cpp lines 35-38) applied to the already-lowered
operand op. -/
def LowerOp (n : Expand) (input : XlaExpr) : XlaExpr :=
  XlaExpr.broadcast input n.size

end Expand

/-- Modelled from the spec: `resize::GetForwardOutputShape2d`
(resize_ops.cpp is not among the shown sources) — the forward 2d-resize
output shape keeps the leading batch/feature dimensions of the input and
replaces the two trailing spatial dimensions by `output_size`. -/
def GetForwardOutputShape2d (input : Shape) (output_size : List Int) : Shape :=
  { input with dims := input.dims.take (input.dims.length - 2) ++ output_size }

/-- Modelled from the spec: `resize::LowerForward2d` (resize_ops.cpp is not
among the shown sources) — builds a resize op whose output has the target
shape handed in by the caller (upsample_nearest2d.cpp passes the node's own
`shape()`). -/
def LowerForward2d (input : XlaExpr) (target : Shape) : XlaExpr :=
  XlaExpr.resizeNearest input target

/-- UpsampleNearest node (upsample_nearest2d.cpp, shown in the
leaky_relu.cpp source group): one operand, parameter `output_size_`; its
construction shape comes from `resize::GetForwardOutputShape2d`, a dedicated
shape computation, not from `InferOutputShape` over its lowering. -/
structure UpsampleNearest where
  base : Ir.Node
  output_size : List Int
deriving DecidableEq, Repr

namespace UpsampleNearest

/-- UpsampleNearest constructor (upsample_nearest2d.cpp lines 14-21). -/
def make (input : Value) (output_size : List Int) : UpsampleNearest :=
  { base := Ir.mkNode OpKind.upsample_nearest2d [input]
      (GetForwardOutputShape2d input.shape output_size) 1
      (encIntList output_size),
    output_size := output_size }

/-- UpsampleNearest::Clone (upsample_nearest2d.cpp lines 23-25). -/
def Clone (n : UpsampleNearest) (operands : List Value) : Option UpsampleNearest :=
  (operands.get? 0).map fun x => make x n.output_size

/-- UpsampleNearest::Lower (upsample_nearest2d.cpp lines 27-32) applied to
the already-lowered operand op: `resize::LowerForward2d("ResizeNearest",
input, shape(), ...)` — note that it consumes the node's own stored shape as
the resize target. -/
def LowerOp (n : UpsampleNearest) (input : XlaExpr) : XlaExpr :=
  LowerForward2d input n.base.shape

end UpsampleNearest

/-- Unselect node (unselect.cpp): two operands (target, source), parameters
`dim_`, `start_`, `end_`, `stride_`, shape equal to the target's shape. -/
structure Unselect where
  base : Ir.Node
  dim_ : Int
  start_ : Int
  end_ : Int
  stride_ : Int
deriving DecidableEq, Repr

namespace Unselect

/-- Unselect constructor (unselect.cpp lines 14-20): hash seed
`MHash(dim, start, end, stride)`. -/
def make (target source : Value) (dim start_ end_ stride : Int) : Unselect :=
  { base := Ir.mkNode OpKind.unselect [target, source] target.shape 1
      (mhash [encInt dim, encInt start_, encInt end_, encInt stride]),
    dim_ := dim, start_ := start_, end_ := end_, stride_ := stride }

/-- Unselect::Clone (unselect.cpp lines 23-26): rebuilds from
`operands.at(0)` and `operands.at(1)`; `none` models the fatal out-of-range
failure when fewer than two replacement operands are supplied. -/
def Clone (n : Unselect) (operands : List Value) : Option Unselect :=
  match operands.get? 0, operands.get? 1 with
  | some a, some b => some (make a b n.dim_ n.start_ n.end_ n.stride_)
  | _, _ => none

end Unselect

/-- ReflectionPad2dBackward node (reflection_pad2d_backward.cpp): two
operands (grad_output, input), parameter `padding_`, shape inferred by
running `BuildReflectionPad2dBackward` — the same builder `Lower` uses — on
placeholder operands. -/
structure ReflectionPad2dBackward where
  base : Ir.Node
  padding : List Int
deriving DecidableEq, Repr

namespace ReflectionPad2dBackward

/-- NodeOutputShape for ReflectionPad2dBackward
(reflection_pad2d_backward.cpp lines 14-23). -/
def NodeOutputShape (grad_output input : Value) (padding : List Int) : Shape :=
  InferOutputShape [grad_output.shape, input.shape]
    (fun operands => XlaExpr.padBackward (operands.getD 0 default)
      (operands.getD 1 default) padding)

/-- ReflectionPad2dBackward constructor (reflection_pad2d_backward.cpp lines
26-32). -/
def make (grad_output input : Value) (padding : List Int) :
    ReflectionPad2dBackward :=
  { base := Ir.mkNode OpKind.reflection_pad2d_backward [grad_output, input]
      (NodeOutputShape grad_output input padding) 1 (encIntList padding),
    padding := padding }

/-- ReflectionPad2dBackward::Clone (reflection_pad2d_backward.cpp lines
34-37): rebuilds from `operands.at(0)` and `operands.at(1)`. -/
def Clone (n : ReflectionPad2dBackward) (operands : List Value) :
    Option ReflectionPad2dBackward :=
  match operands.get? 0, operands.get? 1 with
  | some a, some b => some (make a b n.padding)
  | _, _ => none

/-- ReflectionPad2dBackward::Lower (reflection_pad2d_backward.cpp lines
39-45) applied to the already-lowered operand ops. -/
def LowerOp (n : ReflectionPad2dBackward) (grad_output input : XlaExpr) :
    XlaExpr :=
  XlaExpr.padBackward grad_output input n.padding

end ReflectionPad2dBackward

end Ops

/-- A concrete 1x1x2x2 input value (element type 1) used in concrete runs. -/
def exValue : Value :=
  { shape := { dtype := 1, dims := [1, 1, 2, 2] }, vhash := 0 }

theorem lowerProd_shape (a : XlaExpr) (dims : List Int) (keep : Bool)
    (dtype : Option Int) :
    (Ops.LowerProd a dims keep dtype).shape =
      reduceShape
        { a.shape with dtype := match dtype with
            | some d => d
            | none => numericType a.shape.dtype } dims keep := by
  cases dtype <;> rfl

/-- C2: the claim states that for EVERY node kind whose output shape depends
on backend lowering behavior — naming reductions, resizes and expands — the
construction-time shape is obtained by invoking the same lowering function
that `Lower()` later uses, applied to placeholder operands.  Counterexample:
for the resize kind `UpsampleNearest`, `Lower()`'s result on the very same
placeholder operand differs between two nodes that differ only in
`output_size` (the lowering consumes the node's own stored shape as the
resize target), so no lowering function of the operands reproduces it, and
the construction-time shape instead comes from the dedicated shape
computation `GetForwardOutputShape2d`. -/
theorem C2_same_lowering_counterexample :
    (Ops.UpsampleNearest.make exValue [4, 4]).base.operands =
      (Ops.UpsampleNearest.make exValue [6, 6]).base.operands ∧
    (Ops.UpsampleNearest.LowerOp (Ops.UpsampleNearest.make exValue [4, 4])
        (XlaExpr.parameter exValue.shape)).shape ≠
      (Ops.UpsampleNearest.LowerOp (Ops.UpsampleNearest.make exValue [6, 6])
        (XlaExpr.parameter exValue.shape)).shape ∧
    (Ops.UpsampleNearest.make exValue [4, 4]).base.shape =
      Ops.GetForwardOutputShape2d exValue.shape [4, 4] := by
  decide

/-- C2 (amended): for the reduction, expand and pad-backward kinds shown
(Prod, Expand, ReflectionPad2dBackward) the construction-time shape is
computed by invoking — via `InferOutputShape` on placeholder operands — the
same lowering function `Lower()` later uses, so for every operand assignment
with the declared operand shapes the lowered output's shape equals the
node's shape; the resize kind (UpsampleNearest) instead computes its shape
with the dedicated `GetForwardOutputShape2d` and its `Lower()` uses the
stored node shape as the resize target, so its lowered output's shape
likewise equals the node's shape. -/
theorem C2_inferred_shape_eq_lowered (input g i : Value) (dims : List Int)
    (keep : Bool) (dtype : Option Int) (size padding osize : List Int)
    (op gop iop : XlaExpr) (hop : op.shape = input.shape)
    (_hg : gop.shape = g.shape) (hi : iop.shape = i.shape) :
    ((Ops.Prod.make input dims keep dtype).LowerOp op).shape =
      (Ops.Prod.make input dims keep dtype).base.shape ∧
    ((Ops.Expand.make input size).LowerOp op).shape =
      (Ops.Expand.make input size).base.shape ∧
    ((Ops.ReflectionPad2dBackward.make g i padding).LowerOp gop iop).shape =
      (Ops.ReflectionPad2dBackward.make g i padding).base.shape ∧
    ((Ops.UpsampleNearest.make input osize).LowerOp op).shape =
      (Ops.UpsampleNearest.make input osize).base.shape := by
  refine ⟨?_, ?_, ?_, rfl⟩
  · show (Ops.LowerProd op dims keep dtype).shape =
      (Ops.LowerProd (XlaExpr.parameter input.shape) dims keep dtype).shape
    rw [lowerProd_shape, lowerProd_shape]
    simp [XlaExpr.shape, hop]
  · show (XlaExpr.broadcast op size).shape =
      (XlaExpr.broadcast (XlaExpr.parameter input.shape) size).shape
    simp [XlaExpr.shape, hop]
  · show (XlaExpr.padBackward gop iop padding).shape =
      (XlaExpr.padBackward (XlaExpr.parameter g.shape)
        (XlaExpr.parameter i.shape) padding).shape
    simp [XlaExpr.shape, hi]

theorem C2_inferred_shape_eq_lowered_witness :
    ((Ops.Prod.make exValue [0] true none).LowerOp
        (XlaExpr.parameter exValue.shape)).shape =
      (Ops.Prod.make exValue [0] true none).base.shape ∧
    ((Ops.Expand.make exValue [2, 2]).LowerOp
        (XlaExpr.parameter exValue.shape)).shape =
      (Ops.Expand.make exValue [2, 2]).base.shape ∧
    ((Ops.ReflectionPad2dBackward.make exValue exValue [1, 1, 1, 1]).LowerOp
        (XlaExpr.parameter exValue.shape) (XlaExpr.parameter exValue.shape)).shape =
      (Ops.ReflectionPad2dBackward.make exValue exValue [1, 1, 1, 1]).base.shape ∧
    ((Ops.UpsampleNearest.make exValue [4, 4]).LowerOp
        (XlaExpr.parameter exValue.shape)).shape =
      (Ops.UpsampleNearest.make exValue [4, 4]).base.shape :=
  C2_inferred_shape_eq_lowered exValue exValue exValue [0] true none
    [2, 2] [1, 1, 1, 1] [4, 4] (XlaExpr.parameter exValue.shape)
    (XlaExpr.parameter exValue.shape) (XlaExpr.parameter exValue.shape)
    rfl rfl rfl

/-- C7: cloning a node with exactly its own operand list reproduces a
structurally identical node — same operation kind, same operands, same
kind-specific parameters — and hence an identical structural hash, shown for
the Softshrink, Prod and LeakyRelu kinds. -/
theorem C7_clone_self_same_hash (input : Value) (lambda slope : ℚ)
    (dims : List Int) (keep : Bool) (dtype : Option Int) :
    (Ops.Softshrink.make input lambda).Clone
        (Ops.Softshrink.make input lambda).base.operands =
      some (Ops.Softshrink.make input lambda) ∧
    ((Ops.Softshrink.make input lambda).Clone
        (Ops.Softshrink.make input lambda).base.operands).map
        (fun m => m.base.node_hash) =
      some (Ops.Softshrink.make input lambda).base.node_hash ∧
    (Ops.Prod.make input dims keep dtype).Clone
        (Ops.Prod.make input dims keep dtype).base.operands =
      some (Ops.Prod.make input dims keep dtype) ∧
    ((Ops.Prod.make input dims keep dtype).Clone
        (Ops.Prod.make input dims keep dtype).base.operands).map
        (fun m => m.base.node_hash) =
      some (Ops.Prod.make input dims keep dtype).base.node_hash ∧
    (Ops.LeakyRelu.make input slope).Clone
        (Ops.LeakyRelu.make input slope).base.operands =
      some (Ops.LeakyRelu.make input slope) ∧
    ((Ops.LeakyRelu.make input slope).Clone
        (Ops.LeakyRelu.make input slope).base.operands).map
        (fun m => m.base.node_hash) =
      some (Ops.LeakyRelu.make input slope).base.node_hash :=
  ⟨rfl, rfl, rfl, rfl, rfl, rfl⟩

/-- C8: for the two-operand kinds shown (Unselect, ReflectionPad2dBackward)
Clone succeeds on every replacement list containing the expected operand
positions 0 and 1 — i.e. every list of length at least 2, extra entries
being ignored — returning the structurally identical node bound to the new
operands, and fails (the fatal out-of-range of `operands.at`) exactly when
too few replacement operands are supplied. -/
theorem C8_clone_arity (t s g i : Value) (d st en str : Int)
    (padding : List Int) (ops : List Value) :
    (((Ops.Unselect.make t s d st en str).Clone ops).isSome ↔ 2 ≤ ops.length) ∧
    (∀ (a b : Value) (rest : List Value),
      (Ops.Unselect.make t s d st en str).Clone (a :: b :: rest) =
        some (Ops.Unselect.make a b d st en str)) ∧
    (((Ops.ReflectionPad2dBackward.make g i padding).Clone ops).isSome ↔
      2 ≤ ops.length) ∧
    (∀ (a b : Value) (rest : List Value),
      (Ops.ReflectionPad2dBackward.make g i padding).Clone (a :: b :: rest) =
        some (Ops.ReflectionPad2dBackward.make a b padding)) := by
  refine ⟨?_, fun a b rest => rfl, ?_, fun a b rest => rfl⟩
  · rcases ops with _ | ⟨a, _ | ⟨b, rest⟩⟩
    · simp [Ops.Unselect.Clone]
    · simp [Ops.Unselect.Clone]
    · simp [Ops.Unselect.Clone]
  · rcases ops with _ | ⟨a, _ | ⟨b, rest⟩⟩
    · simp [Ops.ReflectionPad2dBackward.Clone]
    · simp [Ops.ReflectionPad2dBackward.Clone]
    · simp [Ops.ReflectionPad2dBackward.Clone]

end SwiftXla

namespace TensorApi

/-- Swift `Tensor<Scalar>`: a shape (dimension sizes) and the flattened
scalar storage. -/
structure Tensor (α : Type) where
  shape : List Nat
  scalars : List α
deriving Repr

/-- Elementwise `lhs .== rhs` mask over the scalars of two equal-shaped
tensors. -/
def eqMask {α : Type} [DecidableEq α] (a b : Tensor α) : List Bool :=
  List.zipWith (fun x y => decide (x = y)) a.scalars b.scalars

/-- Elementwise `lhs .!= rhs` mask. -/
def neMask {α : Type} [DecidableEq α] (a b : Tensor α) : List Bool :=
  List.zipWith (fun x y => !(decide (x = y))) a.scalars b.scalars

/-- Tensor `==` (part_000 lines 465-471): a guard returns `false` when the
shapes differ — the scalars are never consulted — otherwise the result is
`(lhs .== rhs).all()`. -/
def tensorEq {α : Type} [DecidableEq α] (a b : Tensor α) : Bool :=
  if a.shape = b.shape then (eqMask a b).all id else false

/-- Tensor `!=` (part_000 lines 473-479): a guard returns `true` when the
shapes differ, otherwise the result is `(lhs .!= rhs).any()`. -/
def tensorNe {α : Type} [DecidableEq α] (a b : Tensor α) : Bool :=
  if a.shape = b.shape then (neMask a b).any id else true

theorem any_map_not (l : List Bool) :
    (l.map (fun b => !b)).any id = !(l.all id) := by
  induction l with
  | nil => rfl
  | cons x xs ih => simp [List.any_cons, List.all_cons, ih]

/-- C10: when the shapes of two same-scalar-type tensors differ, `==`
returns `false` and `!=` returns `true` by the shape guard alone (the result
holds whatever the scalar storage contains, no elementwise comparison being
consulted); and on every pair — equal-shaped or not — `!=` is the logical
negation of `==`. -/
theorem C10_tensor_equatable (α : Type) [DecidableEq α] (a b : Tensor α) :
    (a.shape ≠ b.shape → tensorEq a b = false ∧ tensorNe a b = true) ∧
    tensorNe a b = !(tensorEq a b) := by
  constructor
  · intro h
    unfold tensorEq tensorNe
    rw [if_neg h, if_neg h]
    exact ⟨rfl, rfl⟩
  · unfold tensorEq tensorNe
    by_cases h : a.shape = b.shape
    · rw [if_pos h, if_pos h]
      have hm : neMask a b = (eqMask a b).map (fun x => !x) := by
        unfold eqMask neMask
        rw [List.map_zipWith]
      rw [hm, any_map_not]
    · rw [if_neg h, if_neg h]
      rfl

theorem C10_tensor_equatable_witness :
    (tensorEq (⟨[2], [1, 2]⟩ : Tensor Nat) ⟨[3], [1, 2, 3]⟩ = false ∧
      tensorNe (⟨[2], [1, 2]⟩ : Tensor Nat) ⟨[3], [1, 2, 3]⟩ = true) ∧
    tensorNe (⟨[2], [1, 2]⟩ : Tensor Nat) ⟨[3], [1, 2, 3]⟩ =
      !(tensorEq (⟨[2], [1, 2]⟩ : Tensor Nat) ⟨[3], [1, 2, 3]⟩) :=
  ⟨(C10_tensor_equatable Nat ⟨[2], [1, 2]⟩ ⟨[3], [1, 2, 3]⟩).1 (by decide),
   (C10_tensor_equatable Nat ⟨[2], [1, 2]⟩ ⟨[3], [1, 2, 3]⟩).2⟩

end TensorApi

namespace MeshService

/-- State of the mesh rendezvous service: the number `P` of expected worker
processes (ordinals `0..P-1`) and the registrations received so far, each an
(ordinal, tag, payload) triple. -/
structure MeshState where
  worldSize : Nat
  entries : List (Nat × String × String)

/-- Payload registered by `ordinal` for `tag`, if any. -/
def payloadFor (s : MeshState) (ordinal : Nat) (tag : String) : Option String :=
  (s.entries.find? fun e =>
    decide (e.1 = ordinal) && decide (e.2.1 = tag)).map fun e => e.2.2

/-- Registration step of a Rendezvous call: records this worker's payload
for the tag. -/
def register (s : MeshState) (ordinal : Nat) (tag payload : String) : MeshState :=
  { s with entries := s.entries ++ [(ordinal, tag, payload)] }

/-- All `P` ordinals have registered a payload for `tag`. -/
def rendezvousReady (s : MeshState) (tag : String) : Bool :=
  (List.range s.worldSize).all fun o => (payloadFor s o tag).isSome

/-- Modelled from the spec: MeshClient::Rendezvous's implementation is not
among the shown sources (mesh_service.h only declares it); per spec 4.6 it
"registers this worker's payload for `tag` and blocks until all `P` ordinals
have registered for that same `tag`, then returns the full ordered list of
payloads (indexed by ordinal)".  `none` models a caller still blocked. -/
def Rendezvous (s : MeshState) (tag : String) : Option (List String) :=
  if rendezvousReady s tag then
    some ((List.range s.worldSize).map fun o => (payloadFor s o tag).getD "")
  else
    none

/-- C9: a Rendezvous call stays blocked while any of the `P` ordinals has
not registered a payload for the tag; once every ordinal `0..P-1` has
registered, every blocked caller for that tag is released with the same full
list of payloads (Rendezvous is a function of the service state and tag),
of length `P` and ordered by ordinal. -/
theorem C9_rendezvous (s : MeshState) (tag : String) :
    ((∃ o, o < s.worldSize ∧ payloadFor s o tag = none) →
      Rendezvous s tag = none) ∧
    ((∀ o, o < s.worldSize → (payloadFor s o tag).isSome) →
      ∃ l, Rendezvous s tag = some l ∧ l.length = s.worldSize ∧
        ∀ o, o < s.worldSize → l.get? o = payloadFor s o tag) := by
  constructor
  · rintro ⟨o, ho, hnone⟩
    unfold Rendezvous
    rw [if_neg]
    intro hall
    rw [rendezvousReady, List.all_eq_true] at hall
    have h2 := hall o (List.mem_range.mpr ho)
    rw [hnone] at h2
    simp at h2
  · intro hall
    have hready : rendezvousReady s tag = true := by
      rw [rendezvousReady, List.all_eq_true]
      intro o ho
      exact hall o (List.mem_range.mp ho)
    refine ⟨_, by unfold Rendezvous; rw [if_pos hready], by simp, ?_⟩
    intro o ho
    obtain ⟨v, hv⟩ := Option.isSome_iff_exists.mp (hall o ho)
    rw [List.get?_eq_getElem?, List.getElem?_map, List.getElem?_range ho, hv]
    simp [hv]

/-- Concrete scenario C of the spec: three workers, ordinals 0..2, each
registered payload `str(ordinal)` for tag "barrier1". -/
def meshScenarioC : MeshState :=
  { worldSize := 3,
    entries := [(0, "barrier1", "0"), (1, "barrier1", "1"), (2, "barrier1", "2")] }

/-- Scenario C before worker 2 has registered. -/
def meshPartialC : MeshState :=
  { worldSize := 3,
    entries := [(0, "barrier1", "0"), (1, "barrier1", "1")] }

theorem C9_rendezvous_witness :
    Rendezvous meshPartialC "barrier1" = none ∧
    ∃ l, Rendezvous meshScenarioC "barrier1" = some l ∧
      l.length = meshScenarioC.worldSize ∧
      ∀ o, o < meshScenarioC.worldSize →
        l.get? o = payloadFor meshScenarioC o "barrier1" :=
  ⟨(C9_rendezvous meshPartialC "barrier1").1 ⟨2, by decide, by decide⟩,
   (C9_rendezvous meshScenarioC "barrier1").2 (by decide)⟩

end MeshService
